import Mathlib

/-!
Verification of the eywa-database convenience layer: configuration
defaults (`config.rs`), the connection factory (`pool.rs`) and the two
transaction wrappers (`transaction.rs`), shallowly embedded in Lean.
The external client calls (connect, begin, commit, rollback) are modelled
as explicit outcome parameters, and each wrapper also returns the list of
client operations it issued, mirroring the order of the calls in the
source control flow.
-/

namespace EywaDatabase

/-! ## Configuration (`src/config.rs`) -/

def default_max_connections : Nat := 100

def default_min_connections : Nat := 5

def default_connect_timeout : Nat := 8

def default_acquire_timeout : Nat := 8

def default_idle_timeout : Nat := 8

def default_max_lifetime : Nat := 8

def default_sql_logging : Bool := true

/-- `DatabaseConfig` from `src/config.rs`: url plus pool sizing, timeouts
(in seconds) and the logging toggle. -/
structure DatabaseConfig where
  url : String
  max_connections : Nat
  min_connections : Nat
  connect_timeout_secs : Nat
  acquire_timeout_secs : Nat
  idle_timeout_secs : Nat
  max_lifetime_secs : Nat
  sql_logging : Bool
  deriving DecidableEq, Repr

/-- The `Default` impl for `DatabaseConfig` in `src/config.rs`. -/
def DatabaseConfig.default : DatabaseConfig :=
  { url := "postgres://localhost:5432/eywa"
    max_connections := default_max_connections
    min_connections := default_min_connections
    connect_timeout_secs := default_connect_timeout
    acquire_timeout_secs := default_acquire_timeout
    idle_timeout_secs := default_idle_timeout
    max_lifetime_secs := default_max_lifetime
    sql_logging := default_sql_logging }

/-- `DatabaseConfig::new` in `src/config.rs`: the given url, every other
field from `Default::default()` via struct update. -/
def DatabaseConfig.new (url : String) : DatabaseConfig :=
  { DatabaseConfig.default with url := url }

/-- The serialized form of a configuration: url is required, every other
field is optional and carries a `serde(default = ...)` attribute in
`src/config.rs`. -/
structure RawDatabaseConfig where
  url : String
  max_connections : Option Nat
  min_connections : Option Nat
  connect_timeout_secs : Option Nat
  acquire_timeout_secs : Option Nat
  idle_timeout_secs : Option Nat
  max_lifetime_secs : Option Nat
  sql_logging : Option Bool
  deriving DecidableEq, Repr

/-- Deserialization of `DatabaseConfig`: each missing optional field is
filled by the default function named in its `serde(default = ...)`
attribute in `src/config.rs`. -/
def deserializeConfig (r : RawDatabaseConfig) : DatabaseConfig :=
  { url := r.url
    max_connections := r.max_connections.getD default_max_connections
    min_connections := r.min_connections.getD default_min_connections
    connect_timeout_secs := r.connect_timeout_secs.getD default_connect_timeout
    acquire_timeout_secs := r.acquire_timeout_secs.getD default_acquire_timeout
    idle_timeout_secs := r.idle_timeout_secs.getD default_idle_timeout
    max_lifetime_secs := r.max_lifetime_secs.getD default_max_lifetime
    sql_logging := r.sql_logging.getD default_sql_logging }

/-! ## Errors -/

/-- The native error of the external database client (sea-orm `DbErr`),
abstracted to a code. -/
structure DbErr where
  code : Nat
  deriving DecidableEq, Repr

/-- Modelled from the spec: `eywa_errors::AppError` lives in an external
crate not part of this repository; the spec says this layer normalizes
underlying errors into "a single error kind (database connection failed)
wrapping whatever the underlying client reported". `DatabaseError` is
that kind; `OtherKind` stands for the remaining variants of the
application error type, so that reachability of only the database kind is
a real statement. -/
inductive AppError where
  | DatabaseError (e : DbErr)
  | OtherKind (code : Nat)
  deriving DecidableEq, Repr

/-- Error-mapping on `Except`, as Rust `map_err` composed with `?`. -/
def mapErr {E F A : Type} (g : E → F) : Except E A → Except F A
  | .ok a => .ok a
  | .error e => .error (g e)

/-! ## Transaction wrappers (`src/transaction.rs`) -/

/-- A transaction handle, abstracted to an identifier. -/
abbrev Handle := Nat

/-- One client operation issued by the wrapper: the begin call, the
invocation of the unit of work with a handle, the commit call, the
rollback call. -/
inductive Op where
  | opBegin
  | opF (h : Handle)
  | opCommit
  | opRollback
  deriving DecidableEq, Repr

/-- Outcomes of the external client calls on one connection: what
`db.begin()`, `txn.commit()` and `txn.rollback()` return when issued. -/
structure FakeConn where
  beginResult : Except DbErr Handle
  commitResult : Except DbErr Unit
  rollbackResult : Except DbErr Unit
  deriving Repr

/-- `with_transaction` from `src/transaction.rs`: begin (propagating a
`DatabaseError`-wrapped failure), run the unit of work once, commit on
`Ok` (propagating a wrapped commit failure), roll back on `Err` ignoring
the rollback outcome apart from logging, and return the unit of work
error unchanged. The second component lists the operations issued, in
order. -/
def with_transaction {R : Type} (db : FakeConn)
    (f : Handle → Except AppError R) : Except AppError R × List Op :=
  match db.beginResult with
  | .error e => (.error (.DatabaseError e), [.opBegin])
  | .ok txn =>
    match f txn with
    | .ok result =>
      match db.commitResult with
      | .ok _ => (.ok result, [.opBegin, .opF txn, .opCommit])
      | .error e => (.error (.DatabaseError e), [.opBegin, .opF txn, .opCommit])
    | .error e => (.error e, [.opBegin, .opF txn, .opRollback])

/-- `with_transaction_custom_err` from `src/transaction.rs`: identical
control flow, with begin and commit failures converted into the caller
error type through the `From` instance (here the function `fromApp`), the
unit of work error returned unchanged, and the rollback outcome ignored
apart from logging. -/
def with_transaction_custom_err {R E : Type} (fromApp : AppError → E)
    (db : FakeConn) (f : Handle → Except E R) : Except E R × List Op :=
  match db.beginResult with
  | .error e => (.error (fromApp (.DatabaseError e)), [.opBegin])
  | .ok txn =>
    match f txn with
    | .ok result =>
      match db.commitResult with
      | .ok _ => (.ok result, [.opBegin, .opF txn, .opCommit])
      | .error e => (.error (fromApp (.DatabaseError e)), [.opBegin, .opF txn, .opCommit])
    | .error e => (.error e, [.opBegin, .opF txn, .opRollback])

/-- How many times an operation occurs in an issued-operation list. -/
def countOp (o : Op) : List Op → Nat
  | [] => 0
  | x :: xs => (if x = o then 1 else 0) + countOp o xs

/-- How many invocations of the unit of work (with any handle) an
issued-operation list holds. -/
def countCalls : List Op → Nat
  | [] => 0
  | .opF _ :: xs => 1 + countCalls xs
  | _ :: xs => countCalls xs

/-! ## Connection factory (`src/pool.rs`) -/

/-- The option object handed to the external connect entry point, with
the fields `connect_with_config` sets on it. -/
structure ConnectOptions where
  url : String
  max_connections : Nat
  min_connections : Nat
  connect_timeout : Nat
  acquire_timeout : Nat
  idle_timeout : Nat
  max_lifetime : Nat
  sqlx_logging : Bool
  deriving DecidableEq, Repr

/-- The option object `Database::connect_with_config` builds from a
configuration in `src/pool.rs` (timeouts via the `Duration` accessors of
`src/config.rs`, which keep the seconds value). -/
def connectOptionsOf (config : DatabaseConfig) : ConnectOptions :=
  { url := config.url
    max_connections := config.max_connections
    min_connections := config.min_connections
    connect_timeout := config.connect_timeout_secs
    acquire_timeout := config.acquire_timeout_secs
    idle_timeout := config.idle_timeout_secs
    max_lifetime := config.max_lifetime_secs
    sqlx_logging := config.sql_logging }

/-- A live connection handle from the external client, abstracted to an
identifier. -/
structure DbConn where
  id : Nat
  deriving DecidableEq, Repr

/-- `Database::connect_with_config` from `src/pool.rs`: build the option
object, issue a single connect call to the external client, and wrap any
client failure in `AppError::DatabaseError`. The second component lists
the connect attempts issued. -/
def connect_with_config (config : DatabaseConfig)
    (client : ConnectOptions → Except DbErr DbConn) :
    Except AppError DbConn × List ConnectOptions :=
  let opt := connectOptionsOf config
  match client opt with
  | .ok c => (.ok c, [opt])
  | .error e => (.error (.DatabaseError e), [opt])

/-! ## Theorems -/

/-- Claim C6: for every URL string u, `DatabaseConfig::new(u)` has url
equal to u, max_connections 100, min_connections 5, all four timeout
fields equal to the documented default 8 seconds, and sql_logging
enabled. -/
theorem databaseConfig_new_defaults (u : String) :
    (DatabaseConfig.new u).url = u ∧
    (DatabaseConfig.new u).max_connections = 100 ∧
    (DatabaseConfig.new u).min_connections = 5 ∧
    (DatabaseConfig.new u).connect_timeout_secs = 8 ∧
    (DatabaseConfig.new u).acquire_timeout_secs = 8 ∧
    (DatabaseConfig.new u).idle_timeout_secs = 8 ∧
    (DatabaseConfig.new u).max_lifetime_secs = 8 ∧
    (DatabaseConfig.new u).sql_logging = true := by
  refine ⟨rfl, rfl, rfl, rfl, rfl, rfl, rfl, rfl⟩

/-- Claim C7: deserializing a serialized configuration that holds only
the url field u yields exactly the configuration `DatabaseConfig::new(u)`. -/
theorem deserialize_url_only_eq_new (u : String) :
    deserializeConfig
      { url := u, max_connections := none, min_connections := none,
        connect_timeout_secs := none, acquire_timeout_secs := none,
        idle_timeout_secs := none, max_lifetime_secs := none,
        sql_logging := none } = DatabaseConfig.new u := rfl

/-- Claim C10: `DatabaseConfig`'s `Default` implementation supplies a
configuration with no caller-provided URL, populating url with the fixed
placeholder "postgres://localhost:5432/eywa" and every other field with
its documented default. -/
theorem databaseConfig_default_url_placeholder :
    DatabaseConfig.default =
      { url := "postgres://localhost:5432/eywa", max_connections := 100,
        min_connections := 5, connect_timeout_secs := 8,
        acquire_timeout_secs := 8, idle_timeout_secs := 8,
        max_lifetime_secs := 8, sql_logging := true } := rfl

/-- Claim C1: when begin and commit succeed and the unit of work returns
the success value r, `with_transaction` issues the commit and returns
exactly r. -/
theorem with_transaction_success (db : FakeConn) {R : Type}
    (f : Handle → Except AppError R) (txn : Handle) (r : R)
    (hb : db.beginResult = .ok txn) (hf : f txn = .ok r)
    (hc : db.commitResult = .ok ()) :
    with_transaction db f = (.ok r, [.opBegin, .opF txn, .opCommit]) := by
  simp [with_transaction, hb, hf, hc]

/-- Witness for C1 at a concrete connection and unit of work. -/
theorem with_transaction_success_witness :
    with_transaction ⟨.ok 1, .ok (), .ok ()⟩
        (fun _ => (.ok 42 : Except AppError Nat)) =
      (.ok 42, [.opBegin, .opF 1, .opCommit]) :=
  with_transaction_success ⟨.ok 1, .ok (), .ok ()⟩ _ 1 42 rfl rfl rfl

/-- Claim C2: when begin succeeds and the unit of work returns the error
e, `with_transaction` issues exactly one rollback and returns exactly e,
whatever the rollback outcome is (the rollback result field of the
connection is unconstrained here). -/
theorem with_transaction_failure (db : FakeConn) {R : Type}
    (f : Handle → Except AppError R) (txn : Handle) (e : AppError)
    (hb : db.beginResult = .ok txn) (hf : f txn = .error e) :
    with_transaction db f = (.error e, [.opBegin, .opF txn, .opRollback]) ∧
    countOp .opRollback (with_transaction db f).2 = 1 := by
  have h : with_transaction db f
      = (.error e, [.opBegin, .opF txn, .opRollback]) := by
    simp [with_transaction, hb, hf]
  refine ⟨h, ?_⟩
  rw [h]
  simp [countOp]

/-- Witness for C2 at a concrete connection whose rollback fails. -/
theorem with_transaction_failure_witness :
    with_transaction ⟨.ok 1, .ok (), .error ⟨9⟩⟩
        (fun _ => (.error (.OtherKind 3) : Except AppError Nat)) =
      (.error (.OtherKind 3), [.opBegin, .opF 1, .opRollback]) ∧
    countOp .opRollback
      (with_transaction ⟨.ok 1, .ok (), .error ⟨9⟩⟩
        (fun _ => (.error (.OtherKind 3) : Except AppError Nat))).2 = 1 :=
  with_transaction_failure ⟨.ok 1, .ok (), .error ⟨9⟩⟩ _ 1 (.OtherKind 3) rfl rfl

/-- Claim C3: when begin fails with e, `with_transaction` returns e
wrapped in the database error kind and never invokes the unit of work. -/
theorem with_transaction_begin_fail (db : FakeConn) {R : Type}
    (f : Handle → Except AppError R) (e : DbErr)
    (hb : db.beginResult = .error e) :
    with_transaction db f = (.error (.DatabaseError e), [.opBegin]) ∧
    countCalls (with_transaction db f).2 = 0 := by
  have h : with_transaction db f = (.error (.DatabaseError e), [.opBegin]) := by
    simp [with_transaction, hb]
  refine ⟨h, ?_⟩
  rw [h]
  simp [countCalls]

/-- Witness for C3 at a concrete connection whose begin fails. -/
theorem with_transaction_begin_fail_witness :
    with_transaction ⟨.error ⟨5⟩, .ok (), .ok ()⟩
        (fun _ => (.ok 0 : Except AppError Nat)) =
      (.error (.DatabaseError ⟨5⟩), [.opBegin]) ∧
    countCalls (with_transaction ⟨.error ⟨5⟩, .ok (), .ok ()⟩
        (fun _ => (.ok 0 : Except AppError Nat))).2 = 0 :=
  with_transaction_begin_fail ⟨.error ⟨5⟩, .ok (), .ok ()⟩ _ ⟨5⟩ rfl

/-- Claim C4: when the unit of work succeeds with r but commit fails with
e, `with_transaction` returns e wrapped in the database error kind; the
success value r is discarded and never returned. -/
theorem with_transaction_commit_fail (db : FakeConn) {R : Type}
    (f : Handle → Except AppError R) (txn : Handle) (r : R) (e : DbErr)
    (hb : db.beginResult = .ok txn) (hf : f txn = .ok r)
    (hc : db.commitResult = .error e) :
    with_transaction db f
        = (.error (.DatabaseError e), [.opBegin, .opF txn, .opCommit]) ∧
    (with_transaction db f).1 ≠ .ok r := by
  have h : with_transaction db f
      = (.error (.DatabaseError e), [.opBegin, .opF txn, .opCommit]) := by
    simp [with_transaction, hb, hf, hc]
  refine ⟨h, ?_⟩
  rw [h]
  simp

/-- Witness for C4 at a concrete connection whose commit fails. -/
theorem with_transaction_commit_fail_witness :
    with_transaction ⟨.ok 1, .error ⟨7⟩, .ok ()⟩
        (fun _ => (.ok 42 : Except AppError Nat)) =
      (.error (.DatabaseError ⟨7⟩), [.opBegin, .opF 1, .opCommit]) ∧
    (with_transaction ⟨.ok 1, .error ⟨7⟩, .ok ()⟩
        (fun _ => (.ok 42 : Except AppError Nat))).1 ≠ .ok 42 :=
  with_transaction_commit_fail ⟨.ok 1, .error ⟨7⟩, .ok ()⟩ _ 1 42 ⟨7⟩ rfl rfl rfl

/-- Claim C5: whenever begin succeeds, `with_transaction` invokes the
unit of work exactly once and only with the handle begin returned, and
issues exactly one terminal operation (one commit or one rollback, never
both, never a second one). -/
theorem with_transaction_once (db : FakeConn) {R : Type}
    (f : Handle → Except AppError R) (txn : Handle)
    (hb : db.beginResult = .ok txn) :
    countCalls (with_transaction db f).2 = 1 ∧
    countOp (.opF txn) (with_transaction db f).2 = 1 ∧
    countOp .opCommit (with_transaction db f).2 +
      countOp .opRollback (with_transaction db f).2 = 1 := by
  rcases hf : f txn with e | r
  · simp [with_transaction, hb, hf, countCalls, countOp]
  · rcases hc : db.commitResult with e | u
    · simp [with_transaction, hb, hf, hc, countCalls, countOp]
    · simp [with_transaction, hb, hf, hc, countCalls, countOp]

/-- Witness for C5 at a concrete connection and unit of work. -/
theorem with_transaction_once_witness :
    countCalls (with_transaction ⟨.ok 2, .ok (), .ok ()⟩
        (fun _ => (.ok 7 : Except AppError Nat))).2 = 1 ∧
    countOp (.opF 2) (with_transaction ⟨.ok 2, .ok (), .ok ()⟩
        (fun _ => (.ok 7 : Except AppError Nat))).2 = 1 ∧
    countOp .opCommit (with_transaction ⟨.ok 2, .ok (), .ok ()⟩
        (fun _ => (.ok 7 : Except AppError Nat))).2 +
      countOp .opRollback (with_transaction ⟨.ok 2, .ok (), .ok ()⟩
        (fun _ => (.ok 7 : Except AppError Nat))).2 = 1 :=
  with_transaction_once ⟨.ok 2, .ok (), .ok ()⟩ _ 2 rfl

/-- Claim C8: for every configuration, `connect_with_config` issues
exactly one connect attempt (no retry), on failure returns the client
error wrapped in the database error kind, and every error it can return
is of that kind. -/
theorem connect_with_config_single_attempt (config : DatabaseConfig)
    (client : ConnectOptions → Except DbErr DbConn) :
    (connect_with_config config client).2 = [connectOptionsOf config] ∧
    (∀ e : DbErr, client (connectOptionsOf config) = .error e →
      (connect_with_config config client).1 = .error (.DatabaseError e)) ∧
    (∀ err : AppError, (connect_with_config config client).1 = .error err →
      ∃ e : DbErr, err = .DatabaseError e) := by
  rcases hcl : client (connectOptionsOf config) with e | c
  · refine ⟨?_, ?_, ?_⟩
    · simp [connect_with_config, hcl]
    · intro e2 he2
      injection he2 with h3
      subst h3
      simp [connect_with_config, hcl]
    · intro err herr
      simp [connect_with_config, hcl] at herr
      exact ⟨e, herr.symm⟩
  · refine ⟨?_, ?_, ?_⟩
    · simp [connect_with_config, hcl]
    · intro e2 he2
      exact absurd he2 (by simp)
    · intro err herr
      simp [connect_with_config, hcl] at herr

/-- Witness for C8 at a concrete configuration and a failing client. -/
theorem connect_with_config_single_attempt_witness :
    (connect_with_config (DatabaseConfig.new "postgres://localhost/test")
        (fun _ => .error ⟨11⟩)).2 =
      [connectOptionsOf (DatabaseConfig.new "postgres://localhost/test")] ∧
    (∀ e : DbErr,
      (fun (_ : ConnectOptions) => (.error ⟨11⟩ : Except DbErr DbConn))
          (connectOptionsOf (DatabaseConfig.new "postgres://localhost/test"))
        = .error e →
      (connect_with_config (DatabaseConfig.new "postgres://localhost/test")
          (fun _ => .error ⟨11⟩)).1 = .error (.DatabaseError e)) ∧
    (∀ err : AppError,
      (connect_with_config (DatabaseConfig.new "postgres://localhost/test")
          (fun _ => .error ⟨11⟩)).1 = .error err →
      ∃ e : DbErr, err = .DatabaseError e) :=
  connect_with_config_single_attempt (DatabaseConfig.new "postgres://localhost/test")
    (fun _ => .error ⟨11⟩)

/-- Claim C9: for every connection outcome and every unit of work over
the application error type, `with_transaction_custom_err` run on that
unit of work lifted pointwise through the `From` conversion returns
exactly the result of `with_transaction` converted through `From`, and
issues exactly the same operations: begin and commit failures converted,
the unit of work error returned unchanged, rollback failures swallowed. -/
theorem with_transaction_custom_err_refines {R E : Type}
    (fromApp : AppError → E) (db : FakeConn)
    (f : Handle → Except AppError R) :
    with_transaction_custom_err fromApp db (fun h => mapErr fromApp (f h)) =
      (mapErr fromApp (with_transaction db f).1, (with_transaction db f).2) := by
  rcases hb : db.beginResult with e | txn
  · simp [with_transaction, with_transaction_custom_err, hb, mapErr]
  · rcases hf : f txn with e | r
    · simp [with_transaction, with_transaction_custom_err, hb, hf, mapErr]
    · rcases hc : db.commitResult with e | u
      · simp [with_transaction, with_transaction_custom_err, hb, hf, hc, mapErr]
      · simp [with_transaction, with_transaction_custom_err, hb, hf, hc, mapErr]

end EywaDatabase
